import Mathlib

/-!
Shallow embedding of the RSI backtesting engine (`src/api/app.py`) over ℚ.

The Python module has two core functions:
* `compute_rsi` / `compute_rsi_window` — the indicator engine;
* `run_strategy` — the strategy simulator.

Real-valued Python floats are modelled as rationals.  Instruments are
identified by their position in the ticker list, so a dataset
(`dict` of ticker → price list iterated in ticker-list order) is a
`List (List ℚ)` and the per-ticker state dictionaries become lists indexed
the same way.  Python position strings are kept as `String`, matching the
source's `'neutral'`/`'short'`/`'long'` literals.

Two models of the simulator are given:
* a total one (`stepTick`, `runFrom`, `run_strategy`) in which division is
  ℚ-division (meaningful whenever the divisor is nonzero, which is the case
  in every Python run that raises no exception); and
* an exception-aware one (`stepTickE`, `runFromE`, `run_strategyE`) that
  returns `Except.error StratError.zeroDivisionError` exactly where the
  Python code would raise the built-in `ZeroDivisionError`, i.e. at each
  division whose divisor is zero.  `StratError.zeroPrice` is the typed
  error named by the specification; the embedded code never produces it.
-/

namespace Backtest

/-- Accumulating loop of `compute_rsi`: walk the price list pairwise, adding
nonnegative day-over-day differences to `up` and the absolute value of
negative differences to `down` (Python: `for i in range(1, len(close_array))`). -/
def upDownFrom : ℚ → List ℚ → ℚ × ℚ → ℚ × ℚ
  | _, [], acc => acc
  | prev, x :: xs, (u, d) =>
    let diff := x - prev
    if 0 ≤ diff then upDownFrom x xs (u + diff, d)
    else upDownFrom x xs (u, d + |diff|)

/-- The `(up, down)` totals accumulated by `compute_rsi` over a price slice. -/
def upDown : List ℚ → ℚ × ℚ
  | [] => (0, 0)
  | x :: xs => upDownFrom x xs (0, 0)

/-- `compute_rsi(close_array)` from `src/api/app.py`:
`100.0` when `down == 0`, else `100 - 100 / (1 + up / down)`. -/
def compute_rsi (close_array : List ℚ) : ℚ :=
  let ud := upDown close_array
  if ud.2 = 0 then 100 else 100 - 100 / (1 + ud.1 / ud.2)

/-- Per-ticker body of `compute_rsi_window`: for `i` in
`range(window, n + 1)` append `compute_rsi` of the slice
`prices[i - window : i]`. -/
def rsi_series (prices : List ℚ) (window : Nat) : List ℚ :=
  (List.range' window (prices.length + 1 - window)).map
    (fun i => compute_rsi ((prices.drop (i - window)).take window))

/-- `compute_rsi_window(dataset, tickers, window)` from `src/api/app.py`,
with the ticker dictionary flattened to a list in ticker order. -/
def compute_rsi_window (dataset : List (List ℚ)) (window : Nat) : List (List ℚ) :=
  dataset.map (fun prices => rsi_series prices window)

/-- The shared ledger of `run_strategy`: the scalar `balance` and the
cumulative return factor `cRor`. -/
structure Ledger where
  balance : ℚ
  cRor : ℚ
deriving DecidableEq

/-- Per-ticker entries of the `positions`, `entry_price` and `volume`
dictionaries of `run_strategy`.  `entry_price` is initialised to `None` in
Python and never read before being set; here it starts at `0`. -/
structure TickState where
  pos : String
  ep : ℚ
  vol : ℚ
deriving DecidableEq

/-- Whole simulator state: the ledger plus one `TickState` per ticker. -/
structure Sim where
  ledger : Ledger
  states : List TickState
deriving DecidableEq

/-- CLOSE SHORT branch: if `the_rsi < 33 and positions[tick] == 'short'`,
realize the short P&L and compound the per-trade return. -/
def closeShort (fee rate rsi price : ℚ) (lg : Ledger) (ts : TickState) :
    Ledger × TickState :=
  if rsi < 33 ∧ ts.pos = "short" then
    (⟨lg.balance + ts.ep * (1 - fee) * ts.vol - price * (1 + fee) * ts.vol
        - rate * ts.ep * ts.vol,
      lg.cRor * (1 + (ts.ep * (1 - fee) / (price * (1 + fee)) - 1 - rate))⟩,
     { ts with pos := "neutral" })
  else (lg, ts)

/-- ENTER SHORT branch: if `the_rsi > 66 and positions[tick] == 'neutral'`,
record the entry price and size the position from the current balance. -/
def enterShort (w rsi price : ℚ) (lg : Ledger) (ts : TickState) :
    Ledger × TickState :=
  if 66 < rsi ∧ ts.pos = "neutral" then
    (lg, ⟨"short", price, lg.balance * w / price⟩)
  else (lg, ts)

/-- CLOSE LONG branch: if `the_rsi > 66 and positions[tick] == 'long'`,
realize the long P&L and compound the per-trade return. -/
def closeLong (fee rsi price : ℚ) (lg : Ledger) (ts : TickState) :
    Ledger × TickState :=
  if 66 < rsi ∧ ts.pos = "long" then
    (⟨lg.balance + price * ts.vol * (1 - fee) - ts.ep * ts.vol * (1 + fee),
      lg.cRor * (1 + (price * (1 - fee) / (ts.ep * (1 + fee)) - 1))⟩,
     { ts with pos := "neutral" })
  else (lg, ts)

/-- ENTER LONG branch: if `the_rsi < 33 and positions[tick] == 'neutral'`,
record the entry price and size the position from the current balance. -/
def enterLong (w rsi price : ℚ) (lg : Ledger) (ts : TickState) :
    Ledger × TickState :=
  if rsi < 33 ∧ ts.pos = "neutral" then
    (lg, ⟨"long", price, lg.balance * w / price⟩)
  else (lg, ts)

/-- One ticker's processing for one day of `run_strategy`: the four branches
in source order (close-short, enter-short, close-long, enter-long). -/
def stepTick (fee rate w rsi price : ℚ) (lg : Ledger) (ts : TickState) :
    Ledger × TickState :=
  let s1 := closeShort fee rate rsi price lg ts
  let s2 := enterShort w rsi price s1.1 s1.2
  let s3 := closeLong fee rsi price s2.1 s2.2
  enterLong w rsi price s3.1 s3.2

/-- The inner `for tick in tickers` loop: thread the ledger through the
tickers in order, updating each ticker's state. -/
def stepTicks (fee rate w : ℚ) :
    List ℚ → List ℚ → Ledger → List TickState → Ledger × List TickState
  | r :: rs, p :: ps, lg, ts :: tss =>
    let s1 := stepTick fee rate w r p lg ts
    let rest := stepTicks fee rate w rs ps s1.1 tss
    (rest.1, s1.2 :: rest.2)
  | _, _, lg, tss => (lg, tss)

/-- The RSI values the simulator reads on day `t`:
`rsi_data[tick][t - window_size]` for each ticker. -/
def dayRsis (rsi_data : List (List ℚ)) (window t : Nat) : List ℚ :=
  rsi_data.map (fun r => r.getD (t - window) 0)

/-- The prices the simulator reads on day `t`: `dataset[tick][t]`. -/
def dayPrices (dataset : List (List ℚ)) (t : Nat) : List ℚ :=
  dataset.map (fun p => p.getD t 0)

/-- One iteration of the outer `for t in range(window_size, n)` loop. -/
def stepDay (fee rate w : ℚ) (dataset rsi_data : List (List ℚ))
    (window t : Nat) (s : Sim) : Sim :=
  let r := stepTicks fee rate w (dayRsis rsi_data window t) (dayPrices dataset t)
    s.ledger s.states
  ⟨r.1, r.2⟩

/-- Run the day loop over a given list of day indices. -/
def runFrom (fee rate w : ℚ) (dataset rsi_data : List (List ℚ)) (window : Nat)
    (days : List Nat) (s : Sim) : Sim :=
  days.foldl (fun s t => stepDay fee rate w dataset rsi_data window t s) s

/-- Initial simulator state: balance `100000.0`, `cRor = 1.0`, every ticker
`'neutral'` with zero volume. -/
def initSim (k : Nat) : Sim :=
  ⟨⟨100000, 1⟩, List.replicate k ⟨"neutral", 0, 0⟩⟩

/-- `run_strategy(dataset, tickers, window_size, tx_fee, interest_rate,
weight_per_stock)` from `src/api/app.py`: precompute the RSI series, walk
days `window_size … n-1`, and return the final balance, `cRor - 1`, and the
RSI data. -/
def run_strategy (dataset : List (List ℚ)) (window : Nat) (fee rate w : ℚ) :
    ℚ × ℚ × List (List ℚ) :=
  let rsi_data := compute_rsi_window dataset window
  let n := (dataset.headD []).length
  let fin := runFrom fee rate w dataset rsi_data window
    (List.range' window (n - window)) (initSim dataset.length)
  (fin.ledger.balance, fin.ledger.cRor - 1, rsi_data)

/-- Errors for the exception-aware model.  `zeroDivisionError` stands for
Python's built-in `ZeroDivisionError`, raised at the moment a division by
zero is executed.  `zeroPrice` — modelled from the spec: the typed error the
specification says `run` raises eagerly; no code in `src/api/app.py`
produces it. -/
inductive StratError where
  | zeroPrice
  | zeroDivisionError
deriving DecidableEq

/-- Exception-aware CLOSE SHORT: the per-trade return divides by
`current_price * (1 + tx_fee)`; Python raises `ZeroDivisionError` when that
divisor is zero (the balance assignment on the previous source line contains
no division). -/
def closeShortE (fee rate rsi price : ℚ) (lg : Ledger) (ts : TickState) :
    Except StratError (Ledger × TickState) :=
  if rsi < 33 ∧ ts.pos = "short" then
    if price * (1 + fee) = 0 then Except.error StratError.zeroDivisionError
    else Except.ok
      (⟨lg.balance + ts.ep * (1 - fee) * ts.vol - price * (1 + fee) * ts.vol
          - rate * ts.ep * ts.vol,
        lg.cRor * (1 + (ts.ep * (1 - fee) / (price * (1 + fee)) - 1 - rate))⟩,
       { ts with pos := "neutral" })
  else Except.ok (lg, ts)

/-- Exception-aware ENTER SHORT: `volume = (balance * weight) /
current_price` raises `ZeroDivisionError` when `current_price` is zero. -/
def enterShortE (w rsi price : ℚ) (lg : Ledger) (ts : TickState) :
    Except StratError (Ledger × TickState) :=
  if 66 < rsi ∧ ts.pos = "neutral" then
    if price = 0 then Except.error StratError.zeroDivisionError
    else Except.ok (lg, ⟨"short", price, lg.balance * w / price⟩)
  else Except.ok (lg, ts)

/-- Exception-aware CLOSE LONG: the per-trade return divides by
`entry_price * (1 + tx_fee)`. -/
def closeLongE (fee rsi price : ℚ) (lg : Ledger) (ts : TickState) :
    Except StratError (Ledger × TickState) :=
  if 66 < rsi ∧ ts.pos = "long" then
    if ts.ep * (1 + fee) = 0 then Except.error StratError.zeroDivisionError
    else Except.ok
      (⟨lg.balance + price * ts.vol * (1 - fee) - ts.ep * ts.vol * (1 + fee),
        lg.cRor * (1 + (price * (1 - fee) / (ts.ep * (1 + fee)) - 1))⟩,
       { ts with pos := "neutral" })
  else Except.ok (lg, ts)

/-- Exception-aware ENTER LONG: `volume = (balance * weight) /
current_price` raises `ZeroDivisionError` when `current_price` is zero. -/
def enterLongE (w rsi price : ℚ) (lg : Ledger) (ts : TickState) :
    Except StratError (Ledger × TickState) :=
  if rsi < 33 ∧ ts.pos = "neutral" then
    if price = 0 then Except.error StratError.zeroDivisionError
    else Except.ok (lg, ⟨"long", price, lg.balance * w / price⟩)
  else Except.ok (lg, ts)

/-- Exception-aware ticker step: the four branches in source order; a raised
exception aborts the whole computation, as in Python. -/
def stepTickE (fee rate w rsi price : ℚ) (lg : Ledger) (ts : TickState) :
    Except StratError (Ledger × TickState) :=
  match closeShortE fee rate rsi price lg ts with
  | Except.error e => Except.error e
  | Except.ok s1 =>
    match enterShortE w rsi price s1.1 s1.2 with
    | Except.error e => Except.error e
    | Except.ok s2 =>
      match closeLongE fee rsi price s2.1 s2.2 with
      | Except.error e => Except.error e
      | Except.ok s3 => enterLongE w rsi price s3.1 s3.2

/-- Exception-aware inner ticker loop. -/
def stepTicksE (fee rate w : ℚ) :
    List ℚ → List ℚ → Ledger → List TickState →
      Except StratError (Ledger × List TickState)
  | r :: rs, p :: ps, lg, ts :: tss =>
    match stepTickE fee rate w r p lg ts with
    | Except.error e => Except.error e
    | Except.ok s1 =>
      match stepTicksE fee rate w rs ps s1.1 tss with
      | Except.error e => Except.error e
      | Except.ok rest => Except.ok (rest.1, s1.2 :: rest.2)
  | _, _, lg, tss => Except.ok (lg, tss)

/-- Exception-aware day step. -/
def stepDayE (fee rate w : ℚ) (dataset rsi_data : List (List ℚ))
    (window t : Nat) (s : Sim) : Except StratError Sim :=
  match stepTicksE fee rate w (dayRsis rsi_data window t) (dayPrices dataset t)
      s.ledger s.states with
  | Except.error e => Except.error e
  | Except.ok r => Except.ok ⟨r.1, r.2⟩

/-- Exception-aware day loop. -/
def runFromE (fee rate w : ℚ) (dataset rsi_data : List (List ℚ))
    (window : Nat) : List Nat → Sim → Except StratError Sim
  | [], s => Except.ok s
  | t :: days, s =>
    match stepDayE fee rate w dataset rsi_data window t s with
    | Except.error e => Except.error e
    | Except.ok s1 => runFromE fee rate w dataset rsi_data window days s1

/-- Exception-aware `run_strategy`: identical control flow to
`run_strategy`, but an executed division by zero aborts with
`ZeroDivisionError` exactly as in Python. -/
def run_strategyE (dataset : List (List ℚ)) (window : Nat) (fee rate w : ℚ) :
    Except StratError (ℚ × ℚ × List (List ℚ)) :=
  let rsi_data := compute_rsi_window dataset window
  let n := (dataset.headD []).length
  match runFromE fee rate w dataset rsi_data window
      (List.range' window (n - window)) (initSim dataset.length) with
  | Except.error e => Except.error e
  | Except.ok fin => Except.ok (fin.ledger.balance, fin.ledger.cRor - 1, rsi_data)


theorem closeShort_pos (fee rate rsi price : ℚ) (lg : Ledger) (ts : TickState)
    (h : rsi < 33 ∧ ts.pos = "short") :
    closeShort fee rate rsi price lg ts =
      (⟨lg.balance + ts.ep * (1 - fee) * ts.vol - price * (1 + fee) * ts.vol
          - rate * ts.ep * ts.vol,
        lg.cRor * (1 + (ts.ep * (1 - fee) / (price * (1 + fee)) - 1 - rate))⟩,
       { ts with pos := "neutral" }) := by
  simp [closeShort, h]

theorem closeShort_neg (fee rate rsi price : ℚ) (lg : Ledger) (ts : TickState)
    (h : ¬(rsi < 33 ∧ ts.pos = "short")) :
    closeShort fee rate rsi price lg ts = (lg, ts) := by
  simp [closeShort, h]

theorem enterShort_pos (w rsi price : ℚ) (lg : Ledger) (ts : TickState)
    (h : 66 < rsi ∧ ts.pos = "neutral") :
    enterShort w rsi price lg ts = (lg, ⟨"short", price, lg.balance * w / price⟩) := by
  simp [enterShort, h]

theorem enterShort_neg (w rsi price : ℚ) (lg : Ledger) (ts : TickState)
    (h : ¬(66 < rsi ∧ ts.pos = "neutral")) :
    enterShort w rsi price lg ts = (lg, ts) := by
  simp [enterShort, h]

theorem closeLong_pos (fee rsi price : ℚ) (lg : Ledger) (ts : TickState)
    (h : 66 < rsi ∧ ts.pos = "long") :
    closeLong fee rsi price lg ts =
      (⟨lg.balance + price * ts.vol * (1 - fee) - ts.ep * ts.vol * (1 + fee),
        lg.cRor * (1 + (price * (1 - fee) / (ts.ep * (1 + fee)) - 1))⟩,
       { ts with pos := "neutral" }) := by
  simp [closeLong, h]

theorem closeLong_neg (fee rsi price : ℚ) (lg : Ledger) (ts : TickState)
    (h : ¬(66 < rsi ∧ ts.pos = "long")) :
    closeLong fee rsi price lg ts = (lg, ts) := by
  simp [closeLong, h]

theorem enterLong_pos (w rsi price : ℚ) (lg : Ledger) (ts : TickState)
    (h : rsi < 33 ∧ ts.pos = "neutral") :
    enterLong w rsi price lg ts = (lg, ⟨"long", price, lg.balance * w / price⟩) := by
  simp [enterLong, h]

theorem enterLong_neg (w rsi price : ℚ) (lg : Ledger) (ts : TickState)
    (h : ¬(rsi < 33 ∧ ts.pos = "neutral")) :
    enterLong w rsi price lg ts = (lg, ts) := by
  simp [enterLong, h]

theorem stepTick_closeShort (fee rate w rsi price : ℚ) (lg : Ledger) (ts : TickState)
    (h1 : rsi < 33) (h2 : ts.pos = "short") :
    stepTick fee rate w rsi price lg ts =
      (⟨lg.balance + ts.ep * (1 - fee) * ts.vol - price * (1 + fee) * ts.vol
          - rate * ts.ep * ts.vol,
        lg.cRor * (1 + (ts.ep * (1 - fee) / (price * (1 + fee)) - 1 - rate))⟩,
       ⟨"long", price,
        (lg.balance + ts.ep * (1 - fee) * ts.vol - price * (1 + fee) * ts.vol
          - rate * ts.ep * ts.vol) * w / price⟩) := by
  have h66 : ¬ (66 : ℚ) < rsi := by linarith
  simp only [stepTick, closeShort_pos fee rate rsi price lg ts ⟨h1, h2⟩]
  rw [enterShort_neg _ _ _ _ _ (by simp [h66])]
  rw [closeLong_neg _ _ _ _ _ (by simp [h66])]
  rw [enterLong_pos _ _ _ _ _ (by simp [h1])]

theorem stepTick_closeLong (fee rate w rsi price : ℚ) (lg : Ledger) (ts : TickState)
    (h1 : (66 : ℚ) < rsi) (h2 : ts.pos = "long") :
    stepTick fee rate w rsi price lg ts =
      (⟨lg.balance + price * ts.vol * (1 - fee) - ts.ep * ts.vol * (1 + fee),
        lg.cRor * (1 + (price * (1 - fee) / (ts.ep * (1 + fee)) - 1))⟩,
       { ts with pos := "neutral" }) := by
  have h33 : ¬ rsi < 33 := by linarith
  simp only [stepTick]
  rw [closeShort_neg _ _ _ _ _ _ (by simp [h33])]
  rw [enterShort_neg _ _ _ _ _ (by simp [h2])]
  rw [closeLong_pos _ _ _ _ _ ⟨h1, h2⟩]
  rw [enterLong_neg _ _ _ _ _ (by simp [h33])]

theorem stepTick_enterShort (fee rate w rsi price : ℚ) (lg : Ledger) (ts : TickState)
    (h1 : (66 : ℚ) < rsi) (h2 : ts.pos = "neutral") :
    stepTick fee rate w rsi price lg ts =
      (lg, ⟨"short", price, lg.balance * w / price⟩) := by
  have h33 : ¬ rsi < 33 := by linarith
  simp only [stepTick]
  rw [closeShort_neg _ _ _ _ _ _ (by simp [h33])]
  rw [enterShort_pos _ _ _ _ _ ⟨h1, h2⟩]
  rw [closeLong_neg _ _ _ _ _ (by simp)]
  rw [enterLong_neg _ _ _ _ _ (by simp [h33])]

theorem stepTick_enterLong (fee rate w rsi price : ℚ) (lg : Ledger) (ts : TickState)
    (h1 : rsi < 33) (h2 : ts.pos = "neutral") :
    stepTick fee rate w rsi price lg ts =
      (lg, ⟨"long", price, lg.balance * w / price⟩) := by
  have h66 : ¬ (66 : ℚ) < rsi := by linarith
  simp only [stepTick]
  rw [closeShort_neg _ _ _ _ _ _ (by simp [h2])]
  rw [enterShort_neg _ _ _ _ _ (by simp [h66])]
  rw [closeLong_neg _ _ _ _ _ (by simp [h2])]
  rw [enterLong_pos _ _ _ _ _ ⟨h1, h2⟩]

theorem stepTick_ledger_frame (fee rate w rsi price : ℚ) (lg : Ledger) (ts : TickState)
    (hA : ¬(rsi < 33 ∧ ts.pos = "short")) (hB : ¬((66 : ℚ) < rsi ∧ ts.pos = "long")) :
    (stepTick fee rate w rsi price lg ts).1 = lg := by
  simp only [stepTick]
  rw [closeShort_neg _ _ _ _ _ _ hA]
  by_cases h2 : (66 : ℚ) < rsi ∧ ts.pos = "neutral"
  · rw [enterShort_pos _ _ _ _ _ h2]
    rw [closeLong_neg _ _ _ _ _ (by simp)]
    rw [enterLong_neg _ _ _ _ _ (by simp [h2])]
  · rw [enterShort_neg _ _ _ _ _ h2]
    rw [closeLong_neg _ _ _ _ _ hB]
    by_cases h4 : rsi < 33 ∧ ts.pos = "neutral"
    · rw [enterLong_pos _ _ _ _ _ h4]
    · rw [enterLong_neg _ _ _ _ _ h4]

/-- Position strings the simulator can ever store. -/
def posOk (ts : TickState) : Bool :=
  ts.pos == "neutral" || ts.pos == "long" || ts.pos == "short"

theorem posOk_stepTick (fee rate w rsi price : ℚ) (lg : Ledger) (ts : TickState)
    (h : posOk ts = true) :
    posOk (stepTick fee rate w rsi price lg ts).2 = true := by
  simp only [stepTick, closeShort, enterShort, closeLong, enterLong]
  split_ifs <;> simp_all [posOk]


theorem upDownFrom_nonneg (xs : List ℚ) :
    ∀ (prev u d : ℚ), 0 ≤ u → 0 ≤ d →
      0 ≤ (upDownFrom prev xs (u, d)).1 ∧ 0 ≤ (upDownFrom prev xs (u, d)).2 := by
  induction xs with
  | nil => intro prev u d hu hd; simpa [upDownFrom] using ⟨hu, hd⟩
  | cons x xs ih =>
    intro prev u d hu hd
    simp only [upDownFrom]
    split
    · exact ih x _ _ (by linarith) hd
    · exact ih x _ _ hu (add_nonneg hd (abs_nonneg _))

theorem upDown_nonneg (xs : List ℚ) : 0 ≤ (upDown xs).1 ∧ 0 ≤ (upDown xs).2 := by
  cases xs with
  | nil => simp [upDown]
  | cons x xs => exact upDownFrom_nonneg xs x 0 0 le_rfl le_rfl

theorem compute_rsi_bounds (xs : List ℚ) :
    0 ≤ compute_rsi xs ∧ compute_rsi xs ≤ 100 := by
  obtain ⟨hu, hd⟩ := upDown_nonneg xs
  by_cases h : (upDown xs).2 = 0
  · simp [compute_rsi, h]
  · have hd0 : 0 < (upDown xs).2 := lt_of_le_of_ne hd (Ne.symm h)
    have hq : 0 ≤ (upDown xs).1 / (upDown xs).2 := div_nonneg hu hd
    have h1 : (0 : ℚ) < 1 + (upDown xs).1 / (upDown xs).2 := by linarith
    have h2 : (100 : ℚ) / (1 + (upDown xs).1 / (upDown xs).2) ≤ 100 := by
      rw [div_le_iff₀ h1]
      nlinarith
    have h3 : (0 : ℚ) < 100 / (1 + (upDown xs).1 / (upDown xs).2) := by positivity
    simp only [compute_rsi, if_neg h]
    constructor <;> linarith

/-- Claim C4: for every price slice, `compute_rsi` returns a value in `[0, 100]`;
when `down == 0` (no negative day-over-day difference) it returns exactly `100`,
and otherwise it returns `100 - 100 / (1 + up / down)`. -/
theorem compute_rsi_in_range (xs : List ℚ) :
    (0 ≤ compute_rsi xs ∧ compute_rsi xs ≤ 100)
    ∧ ((upDown xs).2 = 0 → compute_rsi xs = 100)
    ∧ ((upDown xs).2 ≠ 0 →
        compute_rsi xs = 100 - 100 / (1 + (upDown xs).1 / (upDown xs).2)) := by
  refine ⟨compute_rsi_bounds xs, ?_, ?_⟩
  · intro h; simp [compute_rsi, h]
  · intro h; simp [compute_rsi, h]

theorem length_rsi_series (ps : List ℚ) (window : Nat) :
    (rsi_series ps window).length = ps.length + 1 - window := by
  simp [rsi_series]

theorem rsi_series_getD (ps : List ℚ) (window j : Nat)
    (hj : j < ps.length + 1 - window) :
    (rsi_series ps window).getD j 0 = compute_rsi ((ps.drop j).take window) := by
  have hlen : j < (rsi_series ps window).length := by
    rw [length_rsi_series]; exact hj
  rw [List.getD_eq_getElem _ _ hlen]
  have hidx : window + 1 * j - window = j := by omega
  simp only [rsi_series, List.getElem_map, List.getElem_range', hidx]

theorem compute_rsi_window_getD (dataset : List (List ℚ)) (window k : Nat)
    (hk : k < dataset.length) :
    (compute_rsi_window dataset window).getD k []
      = rsi_series (dataset.getD k []) window := by
  have h1 : k < (compute_rsi_window dataset window).length := by
    simpa [compute_rsi_window] using hk
  rw [List.getD_eq_getElem _ _ h1, List.getD_eq_getElem _ _ hk]
  simp [compute_rsi_window]

/-- Claim C5: for `1 ≤ window ≤ N` and an instrument whose price series has
length `N`, the indicator series has exactly `N - window + 1` entries, in
increasing day order: entry `j` is the oscillator of the window of `window`
consecutive prices starting at raw index `j`, so entry `0` is the window of
prices ending at raw index `window - 1`. -/
theorem rsi_series_shape (dataset : List (List ℚ)) (window k : Nat)
    (hk : k < dataset.length) (_hw1 : 1 ≤ window)
    (hwN : window ≤ (dataset.getD k []).length) :
    ((compute_rsi_window dataset window).getD k []).length
        = (dataset.getD k []).length - window + 1
    ∧ ((compute_rsi_window dataset window).getD k []).getD 0 0
        = compute_rsi ((dataset.getD k []).take window)
    ∧ ∀ j, j < (dataset.getD k []).length - window + 1 →
        ((compute_rsi_window dataset window).getD k []).getD j 0
          = compute_rsi (((dataset.getD k []).drop j).take window) := by
  rw [compute_rsi_window_getD dataset window k hk]
  refine ⟨?_, ?_, ?_⟩
  · rw [length_rsi_series]; omega
  · have := rsi_series_getD (dataset.getD k []) window 0 (by omega)
    simpa using this
  · intro j hj
    exact rsi_series_getD (dataset.getD k []) window j (by omega)

/-- Claim C9: on simulated day `t` (with `window ≤ t ≤ N - 1`) the simulator
reads the indicator entry at index `t - window`, which is the oscillator of
the prices at raw indices `t - window` through `t - 1` inclusive: the day-`t`
price at which the transition executes is not part of the window that
triggers it. -/
theorem strategy_reads_prior_window (dataset : List (List ℚ)) (window t k : Nat)
    (hk : k < dataset.length) (_hw1 : 1 ≤ window) (hwt : window ≤ t)
    (ht : t < (dataset.getD k []).length) :
    (dayRsis (compute_rsi_window dataset window) window t).getD k 0
        = ((compute_rsi_window dataset window).getD k []).getD (t - window) 0
    ∧ (dayRsis (compute_rsi_window dataset window) window t).getD k 0
        = compute_rsi (((dataset.getD k []).drop (t - window)).take window)
    ∧ (dayRsis (compute_rsi_window dataset window) window t).getD k 0
        = compute_rsi (((dataset.getD k []).take t).drop (t - window)) := by
  have hklen : k < (compute_rsi_window dataset window).length := by
    simpa [compute_rsi_window] using hk
  have hmap : k < (dayRsis (compute_rsi_window dataset window) window t).length := by
    simpa [dayRsis] using hklen
  have h1 : (dayRsis (compute_rsi_window dataset window) window t).getD k 0
      = ((compute_rsi_window dataset window).getD k []).getD (t - window) 0 := by
    rw [List.getD_eq_getElem _ _ hmap, List.getD_eq_getElem _ _ hklen]
    simp [dayRsis]
  have h2 : ((compute_rsi_window dataset window).getD k []).getD (t - window) 0
      = compute_rsi (((dataset.getD k []).drop (t - window)).take window) := by
    rw [compute_rsi_window_getD dataset window k hk]
    exact rsi_series_getD (dataset.getD k []) window (t - window) (by omega)
  have h3 : ((dataset.getD k []).drop (t - window)).take window
      = ((dataset.getD k []).take t).drop (t - window) := by
    have hid : t - window + window = t := by omega
    rw [List.take_drop, hid]
  exact ⟨h1, h1.trans h2, h1.trans (h2.trans (by rw [h3]))⟩

theorem rsi_series_nil_of_lt (ps : List ℚ) (window : Nat)
    (h : ps.length < window) : rsi_series ps window = [] := by
  have : ps.length + 1 - window = 0 := by omega
  simp [rsi_series, this]

theorem compute_rsi_nil : compute_rsi [] = 100 := by
  simp [compute_rsi, upDown]

theorem rsi_series_zero_window (ps : List ℚ) :
    rsi_series ps 0 = List.replicate (ps.length + 1) 100 := by
  rw [List.eq_replicate_iff]
  constructor
  · simp [rsi_series]
  · intro b hb
    simp only [rsi_series, List.mem_map] at hb
    obtain ⟨i, _, hb⟩ := hb
    simpa [compute_rsi_nil] using hb.symm

/-- Claim C2 (amended): `compute_rsi_window` performs no validation and never
fails: for `window > N` it returns an empty indicator list for the
instrument, for an empty price series (and `window ≥ 1`) it returns an empty
indicator list, and for `window = 0` (the only `window < 1` case) it returns
`N + 1` entries each equal to `100`; there are no `InvalidWindow` or
`EmptySeries` errors in the code. -/
theorem rsi_window_no_validation (dataset : List (List ℚ)) (ps : List ℚ)
    (window : Nat) :
    (ps.length < window → rsi_series ps window = [])
    ∧ (1 ≤ window → rsi_series [] window = [])
    ∧ rsi_series ps 0 = List.replicate (ps.length + 1) 100
    ∧ compute_rsi_window dataset window
        = dataset.map (fun prices => rsi_series prices window) := by
  refine ⟨rsi_series_nil_of_lt ps window, ?_, rsi_series_zero_window ps, rfl⟩
  intro hw
  exact rsi_series_nil_of_lt [] window (by simpa using hw)

/-- Claim C2 counterexample: at `window = 5 > N = 2`, at an empty price
series, and at `window = 0 < 1`, `compute_rsi_window` returns an ordinary
output instead of failing with a typed error — for `window = 0` the output
is even nonempty. -/
theorem rsi_window_never_fails :
    compute_rsi_window [[1, 2]] 5 = [[]]
    ∧ compute_rsi_window [([] : List ℚ)] 3 = [[]]
    ∧ compute_rsi_window [[1, 2]] 0 = [[100, 100, 100]] := by
  refine ⟨?_, ?_, ?_⟩
  · simp [compute_rsi_window, rsi_series_nil_of_lt ([1, 2] : List ℚ) 5 (by norm_num)]
  · simp [compute_rsi_window, rsi_series_nil_of_lt ([] : List ℚ) 3 (by norm_num)]
  · simp [compute_rsi_window, rsi_series_zero_window]


theorem str_neutral_short : (("neutral" : String) = "short") = False := by simp

theorem str_neutral_long : (("neutral" : String) = "long") = False := by simp

theorem str_long_short : (("long" : String) = "short") = False := by simp

theorem str_long_neutral : (("long" : String) = "neutral") = False := by simp

theorem str_short_long : (("short" : String) = "long") = False := by simp

theorem str_short_neutral : (("short" : String) = "neutral") = False := by simp

theorem stepTickE_enterShort_zero (fee rate w rsi : ℚ) (lg : Ledger) (ts : TickState)
    (h1 : (66 : ℚ) < rsi) (h2 : ts.pos = "neutral") :
    stepTickE fee rate w rsi 0 lg ts = Except.error StratError.zeroDivisionError := by
  have h33 : ¬ rsi < 33 := by linarith
  simp [stepTickE, closeShortE, enterShortE, closeLongE, enterLongE, h1, h2, h33,
    str_neutral_short]

theorem stepTickE_enterLong_zero (fee rate w rsi : ℚ) (lg : Ledger) (ts : TickState)
    (h1 : rsi < 33) (h2 : ts.pos = "neutral") :
    stepTickE fee rate w rsi 0 lg ts = Except.error StratError.zeroDivisionError := by
  have h66 : ¬ (66 : ℚ) < rsi := by linarith
  simp [stepTickE, closeShortE, enterShortE, closeLongE, enterLongE, h1, h2, h66,
    str_neutral_short, str_neutral_long]

theorem stepTickE_closeShort_zero (fee rate w rsi price : ℚ) (lg : Ledger) (ts : TickState)
    (h1 : rsi < 33) (h2 : ts.pos = "short") (hz : price * (1 + fee) = 0) :
    stepTickE fee rate w rsi price lg ts = Except.error StratError.zeroDivisionError := by
  simp [stepTickE, closeShortE, h1, h2, hz]

theorem stepTickE_closeLong_zero (fee rate w rsi price : ℚ) (lg : Ledger) (ts : TickState)
    (h1 : (66 : ℚ) < rsi) (h2 : ts.pos = "long") (hz : ts.ep * (1 + fee) = 0) :
    stepTickE fee rate w rsi price lg ts = Except.error StratError.zeroDivisionError := by
  have h33 : ¬ rsi < 33 := by linarith
  simp [stepTickE, closeShortE, enterShortE, closeLongE, h1, h2, h33, hz,
    str_long_short, str_long_neutral]

/-- Claim C3 counterexample: on `dataset = [[10, 5, 8, 2, 0]]`, `window = 2`,
`fee = rate = 0`, `weight = 1`, the run aborts with the built-in
`ZeroDivisionError` (not a typed `ZeroPrice`), and it does so only on the
third simulated day, after the first two simulated days have already opened
and closed a long position, moving the balance from `100000` to `25000` and
the return factor to `1/4` — so the failure is detected mid-simulation,
after simulation state was built, not eagerly at entry. -/
theorem zero_division_not_zero_price :
    run_strategyE [[10, 5, 8, 2, 0]] 2 0 0 1 = Except.error StratError.zeroDivisionError
    ∧ Except.error StratError.zeroDivisionError
        ≠ (Except.error StratError.zeroPrice : Except StratError (ℚ × ℚ × List (List ℚ)))
    ∧ runFromE 0 0 1 [[10, 5, 8, 2, 0]] (compute_rsi_window [[10, 5, 8, 2, 0]] 2) 2
        [2, 3] (initSim 1)
        = Except.ok ⟨⟨25000, 1 / 4⟩, [⟨"neutral", 8, 12500⟩]⟩
    ∧ (25000 : ℚ) ≠ 100000 := by
  have hrsi : compute_rsi_window [[10, 5, 8, 2, 0]] 2 = [[0, 100, 0, 0]] := by
    norm_num [compute_rsi_window, rsi_series, compute_rsi, upDown, upDownFrom, List.range']
  refine ⟨?_, by simp, ?_, by norm_num⟩
  · rw [run_strategyE, hrsi]
    norm_num [runFromE, stepDayE, stepTicksE, stepTickE, closeShortE, enterShortE,
      closeLongE, enterLongE, dayRsis, dayPrices, initSim, List.replicate, List.range',
      str_neutral_short, str_neutral_long, str_long_short, str_long_neutral,
      str_short_long, str_short_neutral]
  · rw [hrsi]
    norm_num [runFromE, stepDayE, stepTicksE, stepTickE, closeShortE, enterShortE,
      closeLongE, enterLongE, dayRsis, dayPrices, initSim, List.replicate,
      str_neutral_short, str_neutral_long, str_long_short, str_long_neutral,
      str_short_long, str_short_neutral]


theorem stepTicks_posOk (fee rate w : ℚ) (rs : List ℚ) :
    ∀ (ps : List ℚ) (lg : Ledger) (tss : List TickState),
      tss.all posOk = true →
      (stepTicks fee rate w rs ps lg tss).2.all posOk = true := by
  induction rs with
  | nil => intro ps lg tss h; simpa [stepTicks] using h
  | cons r rs ih =>
    intro ps lg tss h
    cases ps with
    | nil => simpa [stepTicks] using h
    | cons p ps =>
      cases tss with
      | nil => simp [stepTicks]
      | cons ts tss =>
        simp only [List.all_cons, Bool.and_eq_true] at h
        simp only [stepTicks, List.all_cons, Bool.and_eq_true]
        exact ⟨posOk_stepTick fee rate w r p lg ts h.1, ih ps _ tss h.2⟩

theorem runFrom_posOk (fee rate w : ℚ) (dataset rsi_data : List (List ℚ))
    (window : Nat) (days : List Nat) :
    ∀ s : Sim, s.states.all posOk = true →
      (runFrom fee rate w dataset rsi_data window days s).states.all posOk = true := by
  induction days with
  | nil => intro s h; simpa [runFrom] using h
  | cons t days ih =>
    intro s h
    simp only [runFrom, List.foldl_cons]
    exact ih _ (stepTicks_posOk fee rate w _ _ _ _ h)

theorem initSim_posOk (k : Nat) : (initSim k).states.all posOk = true := by
  simp [initSim, posOk]

/-- Claim C1: whenever a position is closed (a short when the oscillator is
below 33, a long when it is above 66), the ledger is updated by exactly the
documented formulas: on short close the balance gains
`entry*(1-fee)*vol - price*(1+fee)*vol - rate*entry*vol` and the return
factor is multiplied by `1 + (entry*(1-fee)/(price*(1+fee)) - 1 - rate)`;
on long close the balance gains `price*vol*(1-fee) - entry*vol*(1+fee)` and
the factor is multiplied by `1 + (price*(1-fee)/(entry*(1+fee)) - 1)`. -/
theorem close_updates_ledger (fee rate w rsi price : ℚ) (lg : Ledger) (ts : TickState) :
    (rsi < 33 → ts.pos = "short" →
      (stepTick fee rate w rsi price lg ts).1.balance
          = lg.balance + ts.ep * (1 - fee) * ts.vol - price * (1 + fee) * ts.vol
              - rate * ts.ep * ts.vol
        ∧ (stepTick fee rate w rsi price lg ts).1.cRor
          = lg.cRor * (1 + (ts.ep * (1 - fee) / (price * (1 + fee)) - 1 - rate)))
    ∧ ((66 : ℚ) < rsi → ts.pos = "long" →
      (stepTick fee rate w rsi price lg ts).1.balance
          = lg.balance + price * ts.vol * (1 - fee) - ts.ep * ts.vol * (1 + fee)
        ∧ (stepTick fee rate w rsi price lg ts).1.cRor
          = lg.cRor * (1 + (price * (1 - fee) / (ts.ep * (1 + fee)) - 1))) := by
  constructor
  · intro h1 h2
    rw [stepTick_closeShort fee rate w rsi price lg ts h1 h2]
    exact ⟨rfl, rfl⟩
  · intro h1 h2
    rw [stepTick_closeLong fee rate w rsi price lg ts h1 h2]
    exact ⟨rfl, rfl⟩

/-- Claim C6: the balance is mutated only at position-close events: a day-tick
with no close condition leaves the ledger untouched, and opening a position
from neutral (either direction) sets `entry_price` to the current price and
`volume` to `balance * weight / price` computed from the balance at the
moment of entry, leaving the balance itself unchanged. -/
theorem balance_only_changes_on_close (fee rate w rsi price : ℚ)
    (lg : Ledger) (ts : TickState) :
    (¬(rsi < 33 ∧ ts.pos = "short") → ¬((66 : ℚ) < rsi ∧ ts.pos = "long") →
      (stepTick fee rate w rsi price lg ts).1 = lg)
    ∧ (ts.pos = "neutral" → (66 : ℚ) < rsi →
      (stepTick fee rate w rsi price lg ts).1 = lg
        ∧ (stepTick fee rate w rsi price lg ts).2
          = ⟨"short", price, lg.balance * w / price⟩)
    ∧ (ts.pos = "neutral" → rsi < 33 →
      (stepTick fee rate w rsi price lg ts).1 = lg
        ∧ (stepTick fee rate w rsi price lg ts).2
          = ⟨"long", price, lg.balance * w / price⟩) := by
  refine ⟨stepTick_ledger_frame fee rate w rsi price lg ts, ?_, ?_⟩
  · intro h2 h1
    rw [stepTick_enterShort fee rate w rsi price lg ts h1 h2]
    exact ⟨rfl, rfl⟩
  · intro h2 h1
    rw [stepTick_enterLong fee rate w rsi price lg ts h1 h2]
    exact ⟨rfl, rfl⟩

/-- Claim C8: with `fee = 0` and `financing_rate = 0`, opening a long and
later closing it at the same price yields a per-trade return of exactly `0`,
so the close multiplies the cumulative return factor by exactly `1` and the
balance is unchanged by the round trip. -/
theorem round_trip_zero_fee (w rsi0 rsi1 price : ℚ) (lg : Ledger) (ts : TickState)
    (hp : price ≠ 0) (h0 : rsi0 < 33) (h1 : (66 : ℚ) < rsi1) (hn : ts.pos = "neutral") :
    price * (1 - 0) / (price * (1 + 0)) - 1 = 0
    ∧ (stepTick 0 0 w rsi1 price (stepTick 0 0 w rsi0 price lg ts).1
        (stepTick 0 0 w rsi0 price lg ts).2).1.cRor = lg.cRor * (1 + 0)
    ∧ (stepTick 0 0 w rsi1 price (stepTick 0 0 w rsi0 price lg ts).1
        (stepTick 0 0 w rsi0 price lg ts).2).1.balance = lg.balance := by
  have hret : price * (1 - 0) / (price * (1 + 0)) - 1 = 0 := by
    field_simp
  refine ⟨hret, ?_, ?_⟩ <;>
  · rw [stepTick_enterLong 0 0 w rsi0 price lg ts h0 hn,
      stepTick_closeLong 0 0 w rsi1 price lg ⟨"long", price, lg.balance * w / price⟩ h1 rfl]
    simp [hp]

/-- Claim C10: closing a short on day `t` (state short, oscillator below 33)
immediately opens a long the same day: the tick ends long, with entry price
the day-`t` price and volume computed from the post-close balance — never
neutral.  By contrast, closing a long (oscillator above 66) leaves the tick
neutral for the rest of the day, because the enter-short branch was already
evaluated before the close-long branch. -/
theorem close_short_reopens_long (fee rate w rsi price : ℚ)
    (lg : Ledger) (ts : TickState) :
    (rsi < 33 → ts.pos = "short" →
      (stepTick fee rate w rsi price lg ts).2.pos = "long"
        ∧ (stepTick fee rate w rsi price lg ts).2.ep = price
        ∧ (stepTick fee rate w rsi price lg ts).2.vol
            = (stepTick fee rate w rsi price lg ts).1.balance * w / price
        ∧ (stepTick fee rate w rsi price lg ts).2.pos ≠ "neutral")
    ∧ ((66 : ℚ) < rsi → ts.pos = "long" →
      (stepTick fee rate w rsi price lg ts).2.pos = "neutral") := by
  constructor
  · intro h1 h2
    rw [stepTick_closeShort fee rate w rsi price lg ts h1 h2]
    refine ⟨rfl, rfl, rfl, by simp⟩
  · intro h1 h2
    rw [stepTick_closeLong fee rate w rsi price lg ts h1 h2]

/-- Claim C7: throughout every run, at every simulated day and for every
instrument, the position is exactly one of `neutral`, `long`, `short` (so at
most one of long/short holds), with `neutral` as the initial state. -/
theorem position_state_exclusive (fee rate w : ℚ) (dataset rsi_data : List (List ℚ))
    (window : Nat) (days : List Nat) (k : Nat) :
    (initSim k).states.all (fun ts => ts.pos == "neutral") = true
    ∧ (runFrom fee rate w dataset rsi_data window days (initSim k)).states.all posOk
        = true
    ∧ ∀ ts ∈ (runFrom fee rate w dataset rsi_data window days (initSim k)).states,
        (ts.pos = "neutral" ∨ ts.pos = "long" ∨ ts.pos = "short")
          ∧ ¬(ts.pos = "long" ∧ ts.pos = "short") := by
  refine ⟨by simp [initSim], runFrom_posOk fee rate w dataset rsi_data window days _ (initSim_posOk k), ?_⟩
  intro ts hts
  have hall := runFrom_posOk fee rate w dataset rsi_data window days _ (initSim_posOk k)
  rw [List.all_eq_true] at hall
  have h := hall ts hts
  simp only [posOk, Bool.or_eq_true, beq_iff_eq] at h
  constructor
  · tauto
  · rintro ⟨hl, hs⟩
    rw [hl] at hs
    exact absurd hs (by decide)


/-- Claim C3 (amended): `run_strategy` performs no precondition checks; a
zero divisor raises Python's built-in `ZeroDivisionError` at the moment the
division is executed — sizing a new position at a zero current price, or
computing the per-trade return ratio whose denominator
(`current_price * (1 + fee)` for a short close, `entry_price * (1 + fee)`
for a long close) is zero.  There is no typed `ZeroPrice` error and no eager
entry check. -/
theorem lazy_zero_division (fee rate w rsi price : ℚ) (lg : Ledger) (ts : TickState) :
    (ts.pos = "neutral" → (66 : ℚ) < rsi →
      stepTickE fee rate w rsi 0 lg ts = Except.error StratError.zeroDivisionError)
    ∧ (ts.pos = "neutral" → rsi < 33 →
      stepTickE fee rate w rsi 0 lg ts = Except.error StratError.zeroDivisionError)
    ∧ (ts.pos = "short" → rsi < 33 → price * (1 + fee) = 0 →
      stepTickE fee rate w rsi price lg ts = Except.error StratError.zeroDivisionError)
    ∧ (ts.pos = "long" → (66 : ℚ) < rsi → ts.ep * (1 + fee) = 0 →
      stepTickE fee rate w rsi price lg ts = Except.error StratError.zeroDivisionError) := by
  refine ⟨?_, ?_, ?_, ?_⟩
  · intro h2 h1; exact stepTickE_enterShort_zero fee rate w rsi lg ts h1 h2
  · intro h2 h1; exact stepTickE_enterLong_zero fee rate w rsi lg ts h1 h2
  · intro h2 h1 hz; exact stepTickE_closeShort_zero fee rate w rsi price lg ts h1 h2 hz
  · intro h2 h1 hz; exact stepTickE_closeLong_zero fee rate w rsi price lg ts h1 h2 hz

theorem lazy_zero_division_witness :
    stepTickE 0 0 1 70 0 ⟨100, 1⟩ ⟨"neutral", 0, 0⟩
        = Except.error StratError.zeroDivisionError
    ∧ stepTickE 0 0 1 10 0 ⟨100, 1⟩ ⟨"neutral", 0, 0⟩
        = Except.error StratError.zeroDivisionError
    ∧ stepTickE 0 0 1 10 0 ⟨100, 1⟩ ⟨"short", 4, 5⟩
        = Except.error StratError.zeroDivisionError
    ∧ stepTickE 0 0 1 70 3 ⟨100, 1⟩ ⟨"long", 0, 5⟩
        = Except.error StratError.zeroDivisionError := by
  exact ⟨(lazy_zero_division 0 0 1 70 0 ⟨100, 1⟩ ⟨"neutral", 0, 0⟩).1 rfl (by norm_num),
    (lazy_zero_division 0 0 1 10 0 ⟨100, 1⟩ ⟨"neutral", 0, 0⟩).2.1 rfl (by norm_num),
    (lazy_zero_division 0 0 1 10 0 ⟨100, 1⟩ ⟨"short", 4, 5⟩).2.2.1 rfl (by norm_num) (by norm_num),
    (lazy_zero_division 0 0 1 70 3 ⟨100, 1⟩ ⟨"long", 0, 5⟩).2.2.2 rfl (by norm_num) (by norm_num)⟩

theorem close_updates_ledger_witness :
    ((stepTick (1/100) (2/100) 1 10 2 ⟨100, 1⟩ ⟨"short", 4, 5⟩).1.balance
        = 100 + 4 * (1 - 1/100) * 5 - 2 * (1 + 1/100) * 5 - 2/100 * 4 * 5
      ∧ (stepTick (1/100) (2/100) 1 10 2 ⟨100, 1⟩ ⟨"short", 4, 5⟩).1.cRor
        = 1 * (1 + (4 * (1 - 1/100) / (2 * (1 + 1/100)) - 1 - 2/100)))
    ∧ ((stepTick (1/100) (2/100) 1 70 2 ⟨100, 1⟩ ⟨"long", 4, 5⟩).1.balance
        = 100 + 2 * 5 * (1 - 1/100) - 4 * 5 * (1 + 1/100)
      ∧ (stepTick (1/100) (2/100) 1 70 2 ⟨100, 1⟩ ⟨"long", 4, 5⟩).1.cRor
        = 1 * (1 + (2 * (1 - 1/100) / (4 * (1 + 1/100)) - 1))) := by
  exact ⟨(close_updates_ledger (1/100) (2/100) 1 10 2 ⟨100, 1⟩ ⟨"short", 4, 5⟩).1
      (by norm_num) rfl,
    (close_updates_ledger (1/100) (2/100) 1 70 2 ⟨100, 1⟩ ⟨"long", 4, 5⟩).2
      (by norm_num) rfl⟩

theorem balance_only_changes_on_close_witness :
    (stepTick 0 0 1 50 2 ⟨100, 1⟩ ⟨"neutral", 0, 0⟩).1 = ⟨100, 1⟩
    ∧ ((stepTick 0 0 1 70 2 ⟨100, 1⟩ ⟨"neutral", 0, 0⟩).1 = ⟨100, 1⟩
      ∧ (stepTick 0 0 1 70 2 ⟨100, 1⟩ ⟨"neutral", 0, 0⟩).2 = ⟨"short", 2, 100 * 1 / 2⟩)
    ∧ ((stepTick 0 0 1 10 2 ⟨100, 1⟩ ⟨"neutral", 0, 0⟩).1 = ⟨100, 1⟩
      ∧ (stepTick 0 0 1 10 2 ⟨100, 1⟩ ⟨"neutral", 0, 0⟩).2 = ⟨"long", 2, 100 * 1 / 2⟩) := by
  exact ⟨(balance_only_changes_on_close 0 0 1 50 2 ⟨100, 1⟩ ⟨"neutral", 0, 0⟩).1
      (by norm_num) (by norm_num),
    (balance_only_changes_on_close 0 0 1 70 2 ⟨100, 1⟩ ⟨"neutral", 0, 0⟩).2.1
      rfl (by norm_num),
    (balance_only_changes_on_close 0 0 1 10 2 ⟨100, 1⟩ ⟨"neutral", 0, 0⟩).2.2
      rfl (by norm_num)⟩

theorem round_trip_zero_fee_witness :
    (2 : ℚ) * (1 - 0) / (2 * (1 + 0)) - 1 = 0
    ∧ (stepTick 0 0 1 70 2 (stepTick 0 0 1 10 2 ⟨100, 1⟩ ⟨"neutral", 0, 0⟩).1
        (stepTick 0 0 1 10 2 ⟨100, 1⟩ ⟨"neutral", 0, 0⟩).2).1.cRor = 1 * (1 + 0)
    ∧ (stepTick 0 0 1 70 2 (stepTick 0 0 1 10 2 ⟨100, 1⟩ ⟨"neutral", 0, 0⟩).1
        (stepTick 0 0 1 10 2 ⟨100, 1⟩ ⟨"neutral", 0, 0⟩).2).1.balance = 100 := by
  exact round_trip_zero_fee 1 10 70 2 ⟨100, 1⟩ ⟨"neutral", 0, 0⟩
    (by norm_num) (by norm_num) (by norm_num) rfl

theorem close_short_reopens_long_witness :
    ((stepTick 0 0 1 10 2 ⟨100, 1⟩ ⟨"short", 4, 5⟩).2.pos = "long"
      ∧ (stepTick 0 0 1 10 2 ⟨100, 1⟩ ⟨"short", 4, 5⟩).2.ep = 2
      ∧ (stepTick 0 0 1 10 2 ⟨100, 1⟩ ⟨"short", 4, 5⟩).2.vol
          = (stepTick 0 0 1 10 2 ⟨100, 1⟩ ⟨"short", 4, 5⟩).1.balance * 1 / 2
      ∧ (stepTick 0 0 1 10 2 ⟨100, 1⟩ ⟨"short", 4, 5⟩).2.pos ≠ "neutral")
    ∧ (stepTick 0 0 1 70 2 ⟨100, 1⟩ ⟨"long", 4, 5⟩).2.pos = "neutral" := by
  exact ⟨(close_short_reopens_long 0 0 1 10 2 ⟨100, 1⟩ ⟨"short", 4, 5⟩).1
      (by norm_num) rfl,
    (close_short_reopens_long 0 0 1 70 2 ⟨100, 1⟩ ⟨"long", 4, 5⟩).2
      (by norm_num) rfl⟩

theorem position_state_exclusive_witness :
    (initSim 1).states.all (fun ts => ts.pos == "neutral") = true
    ∧ (runFrom 0 0 1 [[3, 1]] (compute_rsi_window [[3, 1]] 1) 1 [1]
        (initSim 1)).states.all posOk = true
    ∧ ((("short" : String) = "neutral" ∨ ("short" : String) = "long"
          ∨ ("short" : String) = "short")
        ∧ ¬(("short" : String) = "long" ∧ ("short" : String) = "short")) := by
  have h := position_state_exclusive 0 0 1 [[3, 1]] (compute_rsi_window [[3, 1]] 1) 1 [1] 1
  have hmem : (⟨"short", 1, 100000⟩ : TickState)
      ∈ (runFrom 0 0 1 [[3, 1]] (compute_rsi_window [[3, 1]] 1) 1 [1]
          (initSim 1)).states := by
    have hrsi : compute_rsi_window [[3, 1]] 1 = [[100, 100]] := by
      norm_num [compute_rsi_window, rsi_series, compute_rsi, upDown, upDownFrom,
        List.range']
    rw [hrsi]
    norm_num [runFrom, stepDay, stepTicks, stepTick, closeShort, enterShort,
      closeLong, enterLong, dayRsis, dayPrices, initSim, List.replicate,
      str_neutral_short, str_neutral_long, str_short_long, str_short_neutral]
  exact ⟨h.1, h.2.1, h.2.2 ⟨"short", 1, 100000⟩ hmem⟩

theorem compute_rsi_in_range_witness :
    compute_rsi [1, 2] = 100
    ∧ compute_rsi [2, 1] = 100 - 100 / (1 + (upDown [2, 1]).1 / (upDown [2, 1]).2) := by
  exact ⟨(compute_rsi_in_range [1, 2]).2.1 (by norm_num [upDown, upDownFrom]),
    (compute_rsi_in_range [2, 1]).2.2 (by norm_num [upDown, upDownFrom])⟩

theorem rsi_series_shape_witness :
    ((compute_rsi_window [[100, 101, 99, 102, 98, 105]] 3).getD 0 []).length = 4
    ∧ ((compute_rsi_window [[100, 101, 99, 102, 98, 105]] 3).getD 0 []).getD 0 0
        = compute_rsi (([100, 101, 99, 102, 98, 105] : List ℚ).take 3)
    ∧ ((compute_rsi_window [[100, 101, 99, 102, 98, 105]] 3).getD 0 []).getD 2 0
        = compute_rsi ((([100, 101, 99, 102, 98, 105] : List ℚ).drop 2).take 3) := by
  have h := rsi_series_shape [[100, 101, 99, 102, 98, 105]] 3 0
    (by norm_num) (by norm_num) (by simp)
  exact ⟨h.1, h.2.1, h.2.2 2 (by simp)⟩

theorem strategy_reads_prior_window_witness :
    (dayRsis (compute_rsi_window [[100, 101, 99, 102, 98, 105]] 3) 3 4).getD 0 0
        = ((compute_rsi_window [[100, 101, 99, 102, 98, 105]] 3).getD 0 []).getD 1 0
    ∧ (dayRsis (compute_rsi_window [[100, 101, 99, 102, 98, 105]] 3) 3 4).getD 0 0
        = compute_rsi ((([100, 101, 99, 102, 98, 105] : List ℚ).drop 1).take 3)
    ∧ (dayRsis (compute_rsi_window [[100, 101, 99, 102, 98, 105]] 3) 3 4).getD 0 0
        = compute_rsi ((([100, 101, 99, 102, 98, 105] : List ℚ).take 4).drop 1) := by
  exact strategy_reads_prior_window [[100, 101, 99, 102, 98, 105]] 3 4 0
    (by norm_num) (by norm_num) (by norm_num) (by simp)

theorem rsi_window_no_validation_witness :
    rsi_series ([1, 2] : List ℚ) 5 = []
    ∧ rsi_series ([] : List ℚ) 3 = []
    ∧ rsi_series ([1, 2] : List ℚ) 0 = List.replicate (2 + 1) 100 := by
  exact ⟨(rsi_window_no_validation [] [1, 2] 5).1 (by simp),
    (rsi_window_no_validation [] ([1, 2] : List ℚ) 3).2.1 (by norm_num),
    (rsi_window_no_validation [] ([1, 2] : List ℚ) 0).2.2.1⟩

end Backtest
